import Mathlib

/-!
Shallow embedding of the source file
src/ckg-tool/test-projects/python-project/main.py (a small Python demo
module: a user registry, a database stub, and a few utility functions),
together with proofs about its observable behaviour.

Conventions of the embedding:
* Python dictionaries become association lists with first-match lookup;
  `d[k] = v` replaces an existing binding in place or appends a fresh one.
* Dynamically typed dictionary values become the inductive type `Value`
  (string, int, float, None); Python floats are modelled by `Rat`, exact
  for every number appearing in this module.
* Python truthiness (`if not data[field]`) becomes `Value.truthy`.
* Raised exceptions become `Except String` with the raised message;
  methods that mutate `self` return the result paired with the new state.
-/

/-- Dynamically typed Python value, covering the value shapes this module
puts into dictionaries: strings, ints, floats (modelled exactly by `Rat`),
and None. -/
inductive Value where
  | str : String → Value
  | int : Int → Value
  | rat : Rat → Value
  | none : Value
deriving DecidableEq

/-- Python truthiness, as tested by `if not data[field]`: the empty string,
0, 0.0 and None are falsy, every other value of `Value` is truthy. -/
def Value.truthy : Value → Bool
  | .str s => decide (s ≠ "")
  | .int n => decide (n ≠ 0)
  | .rat q => decide (q ≠ 0)
  | .none => false

/-- A Python dictionary with string keys, as an association list. -/
abbrev Dict := List (String × Value)

/-- Dictionary lookup `d[k]` (first matching binding; keys are unique in
every dictionary this module builds). -/
def dlookup {α : Type} : List (String × α) → String → Option α
  | [], _ => .none
  | (k, v) :: rest, key => if key = k then some v else dlookup rest key

/-- Python membership test `k in d`. -/
def dcontains {α : Type} (d : List (String × α)) (key : String) : Bool :=
  (dlookup d key).isSome

/-- Python dictionary assignment `d[k] = v`: replace the binding in place
if the key is present, otherwise append it (insertion order preserved). -/
def dset {α : Type} : List (String × α) → String → α → List (String × α)
  | [], key, v => [(key, v)]
  | (k, w) :: rest, key, v =>
      if key = k then (key, v) :: rest else (k, w) :: dset rest key v

/-! ### Python string builtins used by the module -/

/-- The code points Python treats as whitespace (`str.isspace`), the set
both `str.strip()` with no argument and `int()` discard: tab through
carriage return (including vertical tab and form feed), the four
information separators, space, next line, no-break space, ogham space
mark, the `U+2000` to `U+200A` spaces, line and paragraph separator,
narrow no-break space, medium mathematical space and ideographic
space. -/
def pyWhitespaceCodes : List Nat :=
  [0x09, 0x0A, 0x0B, 0x0C, 0x0D, 0x1C, 0x1D, 0x1E, 0x1F, 0x20,
   0x85, 0xA0, 0x1680, 0x2028, 0x2029, 0x202F, 0x205F, 0x3000]

/-- Python `str.isspace` on a single character. -/
def pyIsSpace (c : Char) : Bool :=
  pyWhitespaceCodes.contains c.toNat
    || (0x2000 ≤ c.toNat && c.toNat ≤ 0x200A)

/-- Python `str.strip()` with no argument: remove leading and trailing
whitespace characters. -/
def pyStrip (s : String) : String :=
  ⟨((s.data.dropWhile pyIsSpace).reverse.dropWhile pyIsSpace).reverse⟩

/-- An ASCII code point. On the ASCII fragment the case mappings and the
decimal digits of this embedding agree exactly with the Python string
methods; non-ASCII letters and digits are outside the model and the
theorems that depend on them carry an ASCII hypothesis. -/
def isAsciiChar (c : Char) : Bool :=
  decide (c.toNat ≤ 127)

/-- A string of ASCII characters. -/
def asciiString (s : String) : Bool :=
  s.data.all isAsciiChar

/-- Helper for `pyTitle`: the boolean records whether the previous
character was a letter. -/
def pyTitleAux : List Char → Bool → List Char
  | [], _ => []
  | c :: cs, prevAlpha =>
      (if c.isAlpha then (if prevAlpha then c.toLower else c.toUpper)
       else c) :: pyTitleAux cs c.isAlpha

/-- Python `str.title()`: each maximal run of letters starts with an
uppercase letter and continues in lowercase; other characters separate
the runs and are kept as they are. -/
def pyTitle (s : String) : String := ⟨pyTitleAux s.data false⟩

/-- Python `str.lower()` (ASCII case mapping suffices for this module). -/
def pyLower (s : String) : String := ⟨s.data.map Char.toLower⟩

/-- The digits of a decimal literal read as a natural number. -/
def digitsVal (ds : List Char) : Nat :=
  ds.foldl (fun acc c => acc * 10 + (c.toNat - 48)) 0

/-- Continuation of the digit run of a Python integer literal after at
least one digit: further digits, with single underscores allowed only
between two digits (so no trailing and no doubled underscore). -/
def pyDigitRunRest : List Char → Bool
  | [] => true
  | ['_'] => false
  | '_' :: c :: rest => c.isDigit && pyDigitRunRest rest
  | c :: rest => c.isDigit && pyDigitRunRest rest

/-- The digit-run grammar of the body of a Python integer literal: a
decimal digit, then digits optionally separated by single underscores
(so no leading underscore and nonempty). -/
def pyDigitRun : List Char → Bool
  | [] => false
  | c :: rest => c.isDigit && pyDigitRunRest rest

/-- The value of a digit run, underscores discarded. -/
def pyDigitRunVal (ds : List Char) : Nat :=
  digitsVal (ds.filter (fun c => c != '_'))

/-- Modelled Python `int()` applied to a string: optional surrounding
whitespace (the Python whitespace set), an optional sign, then a run of
decimal digits with optional single underscores between digits; anything
else fails. Exact for ASCII strings; Unicode decimal digits beyond ASCII
are outside the model. -/
def pyStrToInt? (s : String) : Option Int :=
  match (pyStrip s).data with
  | '+' :: ds =>
      if pyDigitRun ds then some (pyDigitRunVal ds) else .none
  | '-' :: ds =>
      if pyDigitRun ds then some (-(pyDigitRunVal ds : Int)) else .none
  | ds =>
      if pyDigitRun ds then some (pyDigitRunVal ds) else .none

/-- The message of the error Python `int()` raises on an unparsable
string. -/
def intParseError (s : String) : String :=
  "invalid literal for int() with base 10: " ++ s

/-- Python `int(v)` on a `Value`: ints pass through, strings are parsed
(raising on failure), floats truncate toward zero (`Int.tdiv`, so
`int(-3.5)` is `-3`), None raises. -/
def pyInt : Value → Except String Int
  | .int n => .ok n
  | .str s =>
      match pyStrToInt? s with
      | some n => .ok n
      | .none => .error (intParseError s)
  | .rat q => .ok (Int.tdiv q.num (q.den : Int))
  | .none => .error "int() argument is None"

/-- Accessing a string method such as `.strip()` on a value: succeeds with
the underlying string, raises on every non-string value. -/
def pyAsStr : Value → Except String String
  | .str s => .ok s
  | _ => .error "value has no string methods"

/-! ### class UserManager

`__init__` stores the passed connection object (any value, `DB` here) and
an empty `users` mapping from username to email. Each method returns its
Python return value together with the state of `self` afterwards. -/

structure UserManager (DB : Type) where
  db : DB
  users : List (String × String)

/-- `UserManager.__init__(self, db_connection)`. -/
def UserManager.init {DB : Type} (db_connection : DB) : UserManager DB :=
  { db := db_connection, users := [] }

/-- `create_user(self, username, email) -> bool`: returns False and leaves
`self.users` alone when the username is already present, otherwise stores
`self.users[username] = email` and returns True. -/
def UserManager.create_user {DB : Type} (m : UserManager DB)
    (username email : String) : Bool × UserManager DB :=
  if dcontains m.users username then (false, m)
  else (true, { m with users := dset m.users username email })

/-- `authenticate(self, username, password) -> bool`: False for an unknown
username, otherwise `len(password) >= 6`. -/
def UserManager.authenticate {DB : Type} (m : UserManager DB)
    (username password : String) : Bool × UserManager DB :=
  if dcontains m.users username = false then (false, m)
  else (decide (6 ≤ password.length), m)

/-- `get_user_info(self, username)`: None for an unknown username,
otherwise the fresh dictionary `{username: username, email:
self.users[username]}`. -/
def UserManager.get_user_info {DB : Type} (m : UserManager DB)
    (username : String) :
    Option (List (String × String)) × UserManager DB :=
  match dlookup m.users username with
  | .none => (.none, m)
  | some email => (some [("username", username), ("email", email)], m)

/-! ### class DatabaseManager -/

structure DatabaseManager where
  connection_string : String
  connected : Bool

/-- `DatabaseManager.__init__(self, connection_string)`: stores the
string, starts disconnected. -/
def DatabaseManager.init (connection_string : String) : DatabaseManager :=
  { connection_string := connection_string, connected := false }

/-- `connect(self) -> bool`: the try-body sets `connected = True` and
returns True; the except-branch is unreachable since the body cannot
raise. -/
def DatabaseManager.connect (db : DatabaseManager) :
    Bool × DatabaseManager :=
  (true, { db with connected := true })

/-- `execute_query(self, query)`: raises when not connected, otherwise
returns the hardcoded single-record result. -/
def DatabaseManager.execute_query (db : DatabaseManager)
    (query : String) : Except String (List Dict) :=
  if db.connected = false then .error "数据库未连接"
  else .ok [[("id", Value.int 1), ("name", Value.str "test")]]

/-- `close(self)`: sets `connected = False`. -/
def DatabaseManager.close (db : DatabaseManager) : DatabaseManager :=
  { db with connected := false }

/-! ### Utility functions -/

/-- An item dictionary of `calculate_total`, typed `Dict[str, float]` in
the source. -/
abbrev PriceDict := List (String × Rat)

/-- `calculate_total(items)`: starting from `total = 0.0`, each item with
both a "price" and a "quantity" key adds their product. -/
def calculate_total (items : List PriceDict) : Rat :=
  items.foldl
    (fun total item =>
      match dlookup item "price", dlookup item "quantity" with
      | some p, some q => total + p * q
      | _, _ => total)
    0

/-- The field list `required_fields` of `validate_input`. -/
def required_fields : List String := ["name", "email", "age"]

/-- The loop body of `validate_input`: walk the field list, returning False
as soon as a field is absent or its value is falsy. -/
def checkFields (data : Dict) : List String → Bool
  | [] => true
  | field :: rest =>
      match dlookup data field with
      | .none => false
      | some v => if v.truthy = false then false else checkFields data rest

/-- `validate_input(data) -> bool`. -/
def validate_input (data : Dict) : Bool :=
  checkFields data required_fields

/-- `process_user_data(user_data)`: the sentinel error dictionary when
validation fails, otherwise the normalized dictionary; a raise from a
string-method access or from `int()` propagates as `Except.error`. The
key lookups cannot fail once validation succeeded; the dead branch raises
the KeyError a failed lookup would raise in Python. -/
def process_user_data (user_data : Dict) : Except String Dict :=
  if validate_input user_data = false then
    .ok [("error", Value.str "Invalid input data")]
  else
    match dlookup user_data "name", dlookup user_data "email",
        dlookup user_data "age" with
    | some nv, some ev, some av => do
        let n ← pyAsStr nv
        let e ← pyAsStr ev
        let a ← pyInt av
        .ok [("name", Value.str (pyTitle (pyStrip n))),
             ("email", Value.str (pyLower (pyStrip e))),
             ("age", Value.int a)]
    | _, _, _ => .error "KeyError"

/-! ### Sequences of registry operations

The three public `UserManager` methods as a step relation, for stating
invariants over arbitrary call sequences. -/

/-- One call to a public method of the user registry. -/
inductive RegistryOp where
  | createUser : String → String → RegistryOp
  | auth : String → String → RegistryOp
  | info : String → RegistryOp

/-- The state of the registry after one method call. -/
def applyOp {DB : Type} (m : UserManager DB) : RegistryOp → UserManager DB
  | .createUser u e => (UserManager.create_user m u e).2
  | .auth u p => (UserManager.authenticate m u p).2
  | .info u => (UserManager.get_user_info m u).2

/-- The state of the registry after a sequence of method calls. -/
def runOps {DB : Type} (m : UserManager DB) (ops : List RegistryOp) :
    UserManager DB :=
  ops.foldl applyOp m

/-! ## Helper lemmas -/

/-- Assigning one key of a dictionary does not change the lookup of any
other key. -/
theorem dlookup_dset_ne {α : Type} (d : List (String × α)) (key k2 : String)
    (v : α) (h : k2 ≠ key) : dlookup (dset d key v) k2 = dlookup d k2 := by
  induction d with
  | nil => simp [dset, dlookup, h]
  | cons hd tl ih =>
      obtain ⟨a, b⟩ := hd
      by_cases ha : key = a
      · subst ha
        simp [dset, dlookup, h]
      · simp [dset, ha, dlookup, ih]

/-- `authenticate` returns `self` unchanged. -/
theorem authenticate_snd {DB : Type} (m : UserManager DB)
    (username password : String) :
    (UserManager.authenticate m username password).2 = m := by
  by_cases h : dcontains m.users username = false <;>
    simp [UserManager.authenticate, h]

/-- `get_user_info` returns `self` unchanged. -/
theorem get_user_info_snd {DB : Type} (m : UserManager DB)
    (username : String) :
    (UserManager.get_user_info m username).2 = m := by
  cases h : dlookup m.users username <;>
    simp [UserManager.get_user_info, h]

/-- Any single registry method call preserves an existing
username-to-email binding. -/
theorem applyOp_preserves {DB : Type} (m : UserManager DB)
    (op : RegistryOp) (u e : String) (h : dlookup m.users u = some e) :
    dlookup (applyOp m op).users u = some e := by
  cases op with
  | createUser u2 e2 =>
      by_cases hc : dcontains m.users u2
      · simpa [applyOp, UserManager.create_user, hc] using h
      · have hne : u ≠ u2 := by
          intro heq
          subst heq
          simp [dcontains, h] at hc
        simpa [applyOp, UserManager.create_user, hc,
          dlookup_dset_ne m.users u2 u e2 hne] using h
  | auth u2 p => simpa [applyOp, authenticate_snd] using h
  | info u2 => simpa [applyOp, get_user_info_snd] using h

/-! ## Claims -/

/-- C2: for every `DatabaseManager` state and query string,
`execute_query` raises the not-connected error exactly when the
`connected` flag is false, and when connected it returns the single
hardcoded record `{id: 1, name: "test"}` regardless of the query. -/
theorem execute_query_spec (db : DatabaseManager) (query : String) :
    (DatabaseManager.execute_query db query = Except.error "数据库未连接"
      ↔ db.connected = false)
  ∧ DatabaseManager.execute_query db query =
      (if db.connected then
        Except.ok [[("id", Value.int 1), ("name", Value.str "test")]]
       else Except.error "数据库未连接") := by
  cases h : db.connected <;>
    simp [DatabaseManager.execute_query, h]

/-- C3: `create_user` returns False and leaves the registry unchanged
when the username is already a key, otherwise inserts the
username-to-email binding and returns True; registering the same
username twice on a fresh manager returns True then False and leaves
the registry at size 1. -/
theorem create_user_spec {DB : Type} (m : UserManager DB)
    (username email : String) :
    (dcontains m.users username = true →
        UserManager.create_user m username email = (false, m))
  ∧ (dcontains m.users username = false →
        UserManager.create_user m username email =
          (true, { m with users := dset m.users username email }))
  ∧ (∀ (db : DB) (email2 : String),
        (UserManager.create_user (UserManager.init db) username email).1
          = true
      ∧ (UserManager.create_user
            (UserManager.create_user (UserManager.init db) username
              email).2 username email2).1 = false
      ∧ (UserManager.create_user
            (UserManager.create_user (UserManager.init db) username
              email).2 username email2).2.users.length = 1) := by
  refine ⟨fun h => by simp [UserManager.create_user, h],
          fun h => by simp [UserManager.create_user, h],
          fun db email2 => ?_⟩
  simp [UserManager.create_user, UserManager.init, dcontains, dlookup, dset]

/-- Witness for C3 at concrete registries. -/
theorem create_user_spec_witness :
    UserManager.create_user (⟨(), [("a", "x")]⟩ : UserManager Unit)
        "a" "y" = (false, ⟨(), [("a", "x")]⟩)
  ∧ UserManager.create_user (⟨(), [("b", "x")]⟩ : UserManager Unit)
        "a" "y" = (true, ⟨(), [("b", "x"), ("a", "y")]⟩) :=
  ⟨(create_user_spec (⟨(), [("a", "x")]⟩ : UserManager Unit) "a" "y").1
      (by decide),
   (create_user_spec (⟨(), [("b", "x")]⟩ : UserManager Unit) "a" "y").2.1
      (by decide)⟩

/-- C4: `authenticate` returns False for an unregistered username, and
for a registered one returns True exactly when the password has length
at least 6 ("12345" fails, "123456" succeeds); stored emails play no
role (the result depends only on key membership and the password). -/
theorem authenticate_spec {DB : Type} (m : UserManager DB)
    (username password : String) :
    (UserManager.authenticate m username password).1 =
      (if dcontains m.users username then decide (6 ≤ password.length)
       else false)
  ∧ (dcontains m.users username = true →
        ((UserManager.authenticate m username password).1 = true
          ↔ 6 ≤ password.length)
      ∧ (UserManager.authenticate m username "12345").1 = false
      ∧ (UserManager.authenticate m username "123456").1 = true)
  ∧ (dcontains m.users username = false →
        (UserManager.authenticate m username password).1 = false) := by
  cases h : dcontains m.users username <;>
    simp [UserManager.authenticate, h] <;> exact ⟨by decide, by decide⟩

/-- Witness for C4 on a registry holding the username. -/
theorem authenticate_spec_witness :
    (UserManager.authenticate
        (⟨(), [("registered_user", "e")]⟩ : UserManager Unit)
        "registered_user" "12345").1 = false
  ∧ (UserManager.authenticate
        (⟨(), [("registered_user", "e")]⟩ : UserManager Unit)
        "registered_user" "123456").1 = true :=
  ⟨((authenticate_spec (⟨(), [("registered_user", "e")]⟩ : UserManager Unit)
      "registered_user" "12345").2.1 (by decide)).2.1,
   ((authenticate_spec (⟨(), [("registered_user", "e")]⟩ : UserManager Unit)
      "registered_user" "123456").2.1 (by decide)).2.2⟩

/-- C7: `get_user_info` returns None for an unregistered username and
otherwise the record `{username, email}` with the stored email. -/
theorem get_user_info_spec {DB : Type} (m : UserManager DB)
    (username : String) :
    (UserManager.get_user_info m username).1 =
      (dlookup m.users username).map
        (fun email => [("username", username), ("email", email)]) := by
  cases h : dlookup m.users username <;>
    simp [UserManager.get_user_info, h]

/-- C9: `authenticate` and `get_user_info` are pure reads that leave the
whole manager state unchanged, and `create_user` can change only the
`users` mapping, never the connection field. -/
theorem registry_reads_pure {DB : Type} (m : UserManager DB)
    (username password email : String) :
    (UserManager.authenticate m username password).2 = m
  ∧ (UserManager.get_user_info m username).2 = m
  ∧ (UserManager.create_user m username email).2.db = m.db := by
  refine ⟨authenticate_snd m username password,
          get_user_info_snd m username, ?_⟩
  by_cases h : dcontains m.users username <;>
    simp [UserManager.create_user, h]

/-- C8: across any sequence of registry method calls, a username that is
bound to an email stays bound to that same email: no call deletes an
entry or updates a stored email. -/
theorem registry_binding_persistent {DB : Type} (m : UserManager DB)
    (ops : List RegistryOp) (u e : String)
    (h : dlookup m.users u = some e) :
    dlookup (runOps m ops).users u = some e := by
  induction ops generalizing m with
  | nil => simpa [runOps] using h
  | cons op rest ih =>
      simp only [runOps, List.foldl]
      exact ih (applyOp m op) (applyOp_preserves m op u e h)

/-- Witness for C8 on a concrete registry and call sequence. -/
theorem registry_binding_persistent_witness :
    dlookup (runOps (⟨(), [("a", "x")]⟩ : UserManager Unit)
        [RegistryOp.createUser "a" "y", RegistryOp.createUser "b" "z",
         RegistryOp.auth "a" "p", RegistryOp.info "b"]).users "a"
      = some "x" :=
  registry_binding_persistent (⟨(), [("a", "x")]⟩ : UserManager Unit)
    [RegistryOp.createUser "a" "y", RegistryOp.createUser "b" "z",
     RegistryOp.auth "a" "p", RegistryOp.info "b"] "a" "x" rfl

/-- The check `validate_input` performs on a single field: present and
truthy. -/
theorem checkFields_false_iff (data : Dict) (fs : List String) :
    checkFields data fs = false ↔
      ∃ f ∈ fs, dlookup data f = Option.none
        ∨ ∃ v, dlookup data f = some v ∧ v.truthy = false := by
  induction fs with
  | nil => simp [checkFields]
  | cons f rest ih =>
      cases hf : dlookup data f with
      | none =>
          constructor
          · intro _
            exact ⟨f, by simp, Or.inl hf⟩
          · intro _
            simp [checkFields, hf]
      | some v =>
          cases ht : v.truthy with
          | false =>
              constructor
              · intro _
                exact ⟨f, by simp, Or.inr ⟨v, hf, ht⟩⟩
              · intro _
                simp [checkFields, hf, ht]
          | true =>
              have hstep : checkFields data (f :: rest)
                  = checkFields data rest := by
                simp [checkFields, hf, ht]
              rw [hstep, ih]
              constructor
              · rintro ⟨f2, hmem, hbad⟩
                exact ⟨f2, List.mem_cons_of_mem f hmem, hbad⟩
              · rintro ⟨f2, hmem, hbad⟩
                rcases List.mem_cons.mp hmem with rfl | hmem2
                · rcases hbad with hnone | ⟨v2, hv2, htv2⟩
                  · rw [hf] at hnone
                    exact Option.noConfusion hnone
                  · rw [hf] at hv2
                    injection hv2 with hv2
                    subst hv2
                    rw [ht] at htv2
                    exact Bool.noConfusion htv2
                · exact ⟨f2, hmem2, hbad⟩

/-- C5: `validate_input` returns False exactly when one of the required
fields name, email, age is absent or bound to a falsy value; in
particular a zero age fails validation. -/
theorem validate_input_spec (data : Dict) :
    (validate_input data = false ↔
      ∃ f ∈ required_fields, dlookup data f = Option.none
        ∨ ∃ v, dlookup data f = some v ∧ v.truthy = false)
  ∧ validate_input [("name", Value.str "A"), ("email", Value.str "a@b.com"),
      ("age", Value.int 0)] = false :=
  ⟨checkFields_false_iff data required_fields, by decide⟩

/-- The amount a single item adds to the total of `calculate_total`:
price times quantity when both keys are present, zero otherwise. Stated
from the specification sentence, to be compared with the loop in the
source. -/
def itemContribution (item : PriceDict) : Rat :=
  match dlookup item "price", dlookup item "quantity" with
  | some p, some q => p * q
  | _, _ => 0

/-- The accumulator of the `calculate_total` loop splits off as a sum. -/
theorem calculate_total_foldl_eq (items : List PriceDict) (acc : Rat) :
    items.foldl
      (fun total item =>
        match dlookup item "price", dlookup item "quantity" with
        | some p, some q => total + p * q
        | _, _ => total)
      acc
    = acc + (items.map itemContribution).sum := by
  induction items generalizing acc with
  | nil => simp
  | cons item rest ih =>
      simp only [List.foldl, List.map_cons, List.sum_cons]
      rw [ih]
      cases hp : dlookup item "price" <;>
        cases hq : dlookup item "quantity" <;>
          simp [itemContribution, hp, hq] <;> ring

/-- C6: `calculate_total` returns the sum, over exactly the items
carrying both a price and a quantity key, of price times quantity, items
missing either key contributing zero; the spec example evaluates
to 6. -/
theorem calculate_total_spec (items : List PriceDict) :
    calculate_total items = (items.map itemContribution).sum
  ∧ calculate_total [[("price", 2), ("quantity", 3)], [("price", 1)]]
      = 6 := by
  constructor
  · have h := calculate_total_foldl_eq items 0
    simpa [calculate_total] using h
  · have h1 : dlookup [("price", (2 : Rat)), ("quantity", 3)] "price"
        = some 2 := rfl
    have h2 : dlookup [("price", (2 : Rat)), ("quantity", 3)] "quantity"
        = some 3 := rfl
    have h3 : dlookup [("price", (1 : Rat))] "quantity" = Option.none :=
      rfl
    simp [calculate_total, h1, h2, h3]
    norm_num

/-- C10: `calculate_total` on the empty list is exactly zero, and more
generally every list whose items all lack the price key or the quantity
key totals zero. -/
theorem calculate_total_zero :
    calculate_total ([] : List PriceDict) = 0
  ∧ ∀ items : List PriceDict,
      (∀ item ∈ items, dlookup item "price" = Option.none
        ∨ dlookup item "quantity" = Option.none) →
      calculate_total items = 0 := by
  constructor
  · rfl
  · intro items h
    show items.foldl _ 0 = 0
    rw [calculate_total_foldl_eq, zero_add]
    apply List.sum_eq_zero
    intro x hx
    rcases List.mem_map.mp hx with ⟨item, hitem, rfl⟩
    rcases h item hitem with hc | hc <;>
      cases hp : dlookup item "price" <;>
        cases hq : dlookup item "quantity" <;>
          simp_all [itemContribution]

/-- Witness for C10: a list of key-deficient items totals zero. -/
theorem calculate_total_zero_witness :
    calculate_total [[("price", 1)], [], [("quantity", 2)]] = 0 :=
  calculate_total_zero.2 [[("price", 1)], [], [("quantity", 2)]]
    (by decide)

/-- C1: `process_user_data` returns the sentinel error dictionary exactly
when `validate_input` fails; when validation succeeds it returns the
normalized record (trimmed title-cased name, trimmed lower-cased email,
integer-parsed age); and a truthy non-numeric age string makes the
integer parse raise, the error propagating unhandled to the caller. The
string branches are stated on the ASCII fragment, where the case
mappings and the decimal-digit set of the embedding agree exactly with
the Python string methods. -/
theorem process_user_data_spec (d : Dict) :
    (process_user_data d
        = Except.ok [("error", Value.str "Invalid input data")]
      ↔ validate_input d = false)
  ∧ (∀ n e av, validate_input d = true →
      dlookup d "name" = some (Value.str n) →
      dlookup d "email" = some (Value.str e) →
      asciiString n = true →
      asciiString e = true →
      dlookup d "age" = some av →
      (∀ k, pyInt av = Except.ok k →
          process_user_data d = Except.ok
            [("name", Value.str (pyTitle (pyStrip n))),
             ("email", Value.str (pyLower (pyStrip e))),
             ("age", Value.int k)])
      ∧ (∀ s, av = Value.str s → asciiString s = true →
          pyStrToInt? s = Option.none →
          process_user_data d = Except.error (intParseError s))) := by
  constructor
  · constructor
    · intro hok
      by_contra hv
      rw [Bool.not_eq_false] at hv
      rw [process_user_data] at hok
      simp only [hv] at hok
      cases h1 : dlookup d "name" with
      | none => simp [h1] at hok
      | some nv =>
          cases h2 : dlookup d "email" with
          | none => simp [h1, h2] at hok
          | some ev =>
              cases h3 : dlookup d "age" with
              | none => simp [h1, h2, h3] at hok
              | some av =>
                  simp only [h1, h2, h3] at hok
                  cases hA : pyAsStr nv with
                  | error msg =>
                      rw [hA] at hok
                      exact Except.noConfusion hok
                  | ok n =>
                      cases hB : pyAsStr ev with
                      | error msg =>
                          rw [hA, hB] at hok
                          exact Except.noConfusion hok
                      | ok e =>
                          cases hC : pyInt av with
                          | error msg =>
                              rw [hA, hB, hC] at hok
                              exact Except.noConfusion hok
                          | ok k =>
                              rw [hA, hB, hC] at hok
                              have hok2 : (Except.ok
                                  [("name",
                                      Value.str (pyTitle (pyStrip n))),
                                   ("email",
                                      Value.str (pyLower (pyStrip e))),
                                   ("age", Value.int k)] :
                                    Except String Dict)
                                  = Except.ok [("error",
                                      Value.str "Invalid input data")] :=
                                hok
                              simp at hok2
    · intro h
      simp [process_user_data, h]
  · intro n e av hv hn he hna hea ha
    constructor
    · intro k hk
      simp only [process_user_data, hv, Bool.true_eq_false, if_false,
        hn, he, ha, hk]
      rfl
    · intro s hs hsa hps
      subst hs
      simp only [process_user_data, hv, Bool.true_eq_false, if_false,
        hn, he, ha]
      have hparse : pyInt (Value.str s) = Except.error (intParseError s) := by
        simp [pyInt, hps]
      rw [hparse]
      rfl

/-- Witness for C1 at the example inputs of the specification, plus a
truthy non-numeric age string. -/
theorem process_user_data_spec_witness :
    process_user_data [("name", Value.str " bob "),
        ("email", Value.str " BOB@X.COM "), ("age", Value.str "5")]
      = Except.ok [("name", Value.str "Bob"),
        ("email", Value.str "bob@x.com"), ("age", Value.int 5)]
  ∧ process_user_data [("name", Value.str "A"),
        ("email", Value.str "a@b.com"), ("age", Value.str "abc")]
      = Except.error (intParseError "abc") := by
  constructor
  · have h := ((process_user_data_spec
        [("name", Value.str " bob "), ("email", Value.str " BOB@X.COM "),
         ("age", Value.str "5")]).2
        " bob " " BOB@X.COM " (Value.str "5") (by decide) rfl rfl
        (by decide) (by decide) rfl).1
        5 rfl
    exact h
  · have h := ((process_user_data_spec
        [("name", Value.str "A"), ("email", Value.str "a@b.com"),
         ("age", Value.str "abc")]).2
        "A" "a@b.com" (Value.str "abc") (by decide) rfl rfl
        (by decide) (by decide) rfl).2
        "abc" rfl (by decide) (by decide)
    exact h
